import Mathlib

/-
Verification of the resource/session layer of the documentdb gateway
(pg_documentdb_gw): a shallow embedding of the pool manager, the connection
execution wrapper, the configuration reloader, the transaction handler and
the cursor saver, with theorems about the behaviours the design document
describes.

Machine integers (`usize`) are modelled as `Nat` with explicit wrap-around
modulo `2 ^ 64` exactly where the Rust code can overflow; everywhere else the
values stay well inside the word size and plain `Nat` arithmetic is the
faithful semantics.  Asynchronous methods are modelled as pure functions from
an explicit state (plus the outcomes of calls into collaborators that are not
part of these sources, passed as arguments) to results and updated state.
-/

namespace DocumentDB

/-- The word size of the target platform: `usize` is 64 bits wide. -/
def USIZE : Nat := 2 ^ 64

/-- Wrapping subtraction of `usize` values (the release-mode semantics of
`a - b` in Rust): the two's-complement difference, i.e. the mathematical
difference taken modulo `2 ^ 64` (for `a, b < 2 ^ 64`). -/
def usizeSub (a b : Nat) : Nat := (a + (USIZE - b)) % USIZE

/-- `PoolManager::get_real_max_connections` (src/postgres/pool_manager.rs):
subtracts the system connection budget from the current max-connections value
(`usize` subtraction, which wraps below zero), then raises the result to the
budget when it falls below it. -/
def get_real_max_connections (max_connections system_connection_budget : Nat) : Nat :=
  let real_max_connections := usizeSub max_connections system_connection_budget
  if real_max_connections < system_connection_budget then system_connection_budget
  else real_max_connections

theorem usizeSub_eq_sub {m b : Nat} (hbm : b ≤ m) (hm : m < USIZE) :
    usizeSub m b = m - b := by
  unfold usizeSub
  have hb : b ≤ USIZE := le_trans hbm (le_of_lt hm)
  have h1 : m + (USIZE - b) = USIZE + (m - b) := by omega
  rw [h1, Nat.add_mod_left, Nat.mod_eq_of_lt (by omega)]

/-- Claim C1 counterexample: at max-connections `0` and budget `7` (the default
budget, `SYSTEM_REQUESTS_MAX_CONNECTIONS + AUTHENTICATION_MAX_CONNECTIONS`),
the `usize` subtraction wraps and the computed capacity is `2 ^ 64 - 7`, not
the claimed floor `max (0 - 7) 7 = 7`. -/
theorem get_real_max_connections_cex :
    get_real_max_connections 0 7 ≠ max (0 - 7) 7 := by decide

/-- Claim C1 (amended): whenever the max-connections value is at least the
system-connection budget (and fits in a machine word), the capacity handed to
the pool constructor is the budget-floored difference
`max (max_connections - budget) budget`. -/
theorem get_real_max_connections_eq_max (m b : Nat) (hbm : b ≤ m) (hm : m < USIZE) :
    get_real_max_connections m b = max (m - b) b := by
  unfold get_real_max_connections
  simp only [usizeSub_eq_sub hbm hm]
  split <;> omega

/-- Claim C1 witness: at max-connections `100` and budget `7` the hypotheses
hold and the capacity is the floored difference. -/
theorem get_real_max_connections_eq_max_witness :
    7 ≤ 100 ∧ get_real_max_connections 100 7 = max (100 - 7) 7 :=
  ⟨by decide, get_real_max_connections_eq_max 100 7 (by decide) (by decide)⟩

/-! ## Configuration store (src/configuration/pg_configuration.rs) -/

/-- The mutable state of `PgConfiguration`: the key-to-value snapshot behind
the read/write lock, and the instant of the last successful refresh. -/
structure PgConfigState where
  values : List (String × String)
  last_update_at : Nat

/-- `DynamicConfiguration::get_str` on `PgConfiguration`: look a key up in the
current snapshot. -/
def PgConfigState.get_str (st : PgConfigState) (key : String) : Option String :=
  (st.values.find? (fun kv => kv.1 == key)).map Prod.snd

/-- `PgConfiguration::reload_configuration_with_connection`: the outcome of
`load_configurations` on the supplied connection (a collaborator performing
I/O) is passed in as `load_result`.  On error the error is returned and the
state untouched; on success the snapshot is replaced wholesale and the
last-update instant set to the current time. -/
def reload_configuration_with_connection (st : PgConfigState)
    (load_result : Except String (List (String × String))) (now : Nat) :
    Except String Unit × PgConfigState :=
  match load_result with
  | .error e => (.error e, st)
  | .ok new_config => (.ok (), { values := new_config, last_update_at := now })

/-- Claim C3: when loading the configurations fails, the reload returns that
error, every previously loaded key still maps to its previous value, and the
last-successful-refresh timestamp is unchanged. -/
theorem reload_failure_keeps_snapshot (st : PgConfigState) (e : String) (now : Nat) :
    (reload_configuration_with_connection st (.error e) now).1 = .error e ∧
    (∀ key, ((reload_configuration_with_connection st (.error e) now).2).get_str key =
      st.get_str key) ∧
    ((reload_configuration_with_connection st (.error e) now).2).last_update_at =
      st.last_update_at :=
  ⟨rfl, fun _ => rfl, rfl⟩

/-! ## Connection execution wrapper (src/postgres/connection.rs) -/

/-- `TimeoutType`: transaction-local (`SET LOCAL` inside begin/commit) vs
session-wide command timeout. -/
inductive TimeoutType
  | Transaction
  | Command
deriving DecidableEq

/-- `Timeout`: a requested timeout kind together with its duration. -/
structure Timeout where
  timeout_type : TimeoutType
  max_time_ms : Int
deriving DecidableEq

/-- One statement issued on the underlying connection by `Connection::query`,
in order. -/
inductive SqlOp
  | beginStmt
  | commitStmt
  | rollbackStmt
  | setLocalStatementTimeout (ms : Int)
  | setStatementTimeout (ms : Int)
  | execQuery
deriving DecidableEq

/-- The timeout `Connection::query` restores after an execution:
`Duration::from_secs(120).as_millis()`. -/
def DEFAULT_STATEMENT_TIMEOUT_MS : Int := 120000

/-- `Connection::query`: given the connection's `in_transaction` flag, the
requested timeout and the outcome of the inner `query_internal` execution
(a collaborator performing I/O), returns the ordered list of statements the
wrapper issues and the propagated result.  Mirrors the four `match` arms of
the source: ambient transaction (guarded first arm), Transaction-kind,
Command-kind, and no timeout. -/
def Connection.query (in_transaction : Bool) (timeout : Option Timeout)
    (exec_result : Except String Nat) : List SqlOp × Except String Nat :=
  match timeout with
  | some t =>
    if in_transaction then
      ([.setLocalStatementTimeout t.max_time_ms, .execQuery,
        .setLocalStatementTimeout DEFAULT_STATEMENT_TIMEOUT_MS], exec_result)
    else
      match t.timeout_type with
      | .Transaction =>
        match exec_result with
        | .ok results =>
          ([.beginStmt, .setLocalStatementTimeout t.max_time_ms, .execQuery, .commitStmt],
            .ok results)
        | .error e =>
          ([.beginStmt, .setLocalStatementTimeout t.max_time_ms, .execQuery, .rollbackStmt],
            .error e)
      | .Command =>
        ([.setStatementTimeout t.max_time_ms, .execQuery,
          .setStatementTimeout DEFAULT_STATEMENT_TIMEOUT_MS], exec_result)
  | none => ([.execQuery], exec_result)

/-- Claim C4: outside an ambient transaction, a Transaction-kind timeout makes
the wrapper issue BEGIN, set a transaction-local statement timeout, then
execute; a failing execution is followed by ROLLBACK and the error propagates,
a successful one by COMMIT. -/
theorem query_transaction_kind_discipline (ms : Int) (results : Nat) (e : String) :
    Connection.query false (some ⟨.Transaction, ms⟩) (.ok results) =
      ([.beginStmt, .setLocalStatementTimeout ms, .execQuery, .commitStmt], .ok results) ∧
    Connection.query false (some ⟨.Transaction, ms⟩) (.error e) =
      ([.beginStmt, .setLocalStatementTimeout ms, .execQuery, .rollbackStmt], .error e) :=
  ⟨rfl, rfl⟩

/-- Claim C5: inside an ambient transaction, any requested timeout kind is set
transaction-locally, no BEGIN or COMMIT is issued, and the timeout is restored
to the 120-second default afterward; the execution result propagates. -/
theorem query_ambient_transaction_local (tt : TimeoutType) (ms : Int)
    (exec_result : Except String Nat) :
    Connection.query true (some ⟨tt, ms⟩) exec_result =
      ([.setLocalStatementTimeout ms, .execQuery,
        .setLocalStatementTimeout DEFAULT_STATEMENT_TIMEOUT_MS], exec_result) ∧
    DEFAULT_STATEMENT_TIMEOUT_MS = 120 * 1000 :=
  ⟨rfl, rfl⟩

/-! ## Transaction request handling (src/processor/transaction.rs) -/

/-- The request types `processor::transaction::handle` inspects.  `Other`
stands for every remaining variant of the wire-level `RequestType` enum (none
of which occurs in the two `matches!` sets or in the commit special case). -/
inductive RequestType
  | ReIndex
  | CreateIndex
  | CreateIndexes
  | DropIndexes
  | Aggregate
  | FindAndModify
  | Update
  | Insert
  | Count
  | Distinct
  | Find
  | GetMore
  | CommitTransaction
  | AbortTransaction
  | Other
deriving DecidableEq

/-- Display name of a request type (the `{}` interpolation in the error
messages). -/
def RequestType.name : RequestType → String
  | .ReIndex => "reIndex"
  | .CreateIndex => "createIndex"
  | .CreateIndexes => "createIndexes"
  | .DropIndexes => "dropIndexes"
  | .Aggregate => "aggregate"
  | .FindAndModify => "findAndModify"
  | .Update => "update"
  | .Insert => "insert"
  | .Count => "count"
  | .Distinct => "distinct"
  | .Find => "find"
  | .GetMore => "getMore"
  | .CommitTransaction => "commitTransaction"
  | .AbortTransaction => "abortTransaction"
  | .Other => "other"

/-- The error codes relevant to transaction handling. -/
inductive ErrorCode
  | OperationNotSupportedInTransaction
  | TransactionCommitted
  | OtherCode
deriving DecidableEq

/-- `DocumentDBError`, restricted to the shapes `handle` constructs or
matches: a documentdb error with a code and a message, or any other error. -/
inductive DocumentDBError
  | DocumentDBErr (code : ErrorCode) (msg : String)
  | OtherErr (msg : String)
deriving DecidableEq

/-- `RequestTransactionInfo`: the fields of the parsed transaction info that
`handle` reads. -/
structure RequestTransactionInfo where
  auto_commit : Bool
  transaction_number : Int
deriving DecidableEq

/-- The first `matches!` set in `handle`: index/DDL request types that are
illegal inside a transaction. -/
def isIndexRequest : RequestType → Bool
  | .ReIndex | .CreateIndex | .CreateIndexes | .DropIndexes => true
  | _ => false

/-- The second `matches!` set in `handle`: data operations that are illegal
against reserved databases inside a transaction. -/
def isDataRequest : RequestType → Bool
  | .Aggregate | .FindAndModify | .Update | .Insert | .Count | .Distinct
  | .Find | .GetMore => true
  | _ => false

/-- The reserved database names of the second `matches!` in `handle`. -/
def isReservedDb (db : String) : Bool :=
  db == "config" || db == "admin" || db == "local"

/-- What `handle` produced: the returned result, whether
`transaction_store.create` was invoked, and the final
`connection_context.transaction` (set to `none` on entry). -/
structure HandleOutcome where
  result : Except DocumentDBError Unit
  create_invoked : Bool
  ctx_transaction : Option (List Nat × Int)

/-- `processor::transaction::handle`: the request's type, database and parsed
transaction info, the session id, and the outcome the transaction store's
`create` would return if invoked (`create` lives behind the store, outside
this module) determine the result.  Mirrors the source order: clear the
context's transaction, return early when there is no transaction info or it is
auto-commit, reject index DDL, reject data operations on reserved databases,
then call `create` and special-case an already-committed error for a
commit-triggering request. -/
def Transaction.handle (request_type : RequestType) (db : String)
    (transaction_info : Option RequestTransactionInfo) (session_id : List Nat)
    (create_result : Except DocumentDBError Unit) : HandleOutcome :=
  match transaction_info with
  | none => ⟨.ok (), false, none⟩
  | some info =>
    if info.auto_commit then ⟨.ok (), false, none⟩
    else if isIndexRequest request_type then
      ⟨.error (.DocumentDBErr .OperationNotSupportedInTransaction
        ("Cannot perform operation of type " ++ request_type.name ++
          " inside a transaction")), false, none⟩
    else if isDataRequest request_type && isReservedDb db then
      ⟨.error (.DocumentDBErr .OperationNotSupportedInTransaction
        ("Cannot perform data operation against database " ++ db ++
          " inside a transaction")), false, none⟩
    else
      match create_result with
      | .error e =>
        match request_type, e with
        | .CommitTransaction, .DocumentDBErr .TransactionCommitted _ =>
          ⟨.ok (), true, none⟩
        | _, _ => ⟨.error e, true, none⟩
      | .ok _ => ⟨.ok (), true, some (session_id, info.transaction_number)⟩

/-- Claim C6: a non-auto-commit transactional request that is index DDL, or a
data operation against a reserved database, is rejected with
OperationNotSupportedInTransaction before the store's `create` is invoked, and
no transaction is recorded on the context. -/
theorem handle_rejects_illegal_before_create (rt : RequestType) (db : String)
    (info : RequestTransactionInfo) (sid : List Nat)
    (create_result : Except DocumentDBError Unit)
    (hac : info.auto_commit = false)
    (hill : isIndexRequest rt = true ∨ (isDataRequest rt = true ∧ isReservedDb db = true)) :
    (∃ msg, (Transaction.handle rt db (some info) sid create_result).result =
      .error (.DocumentDBErr .OperationNotSupportedInTransaction msg)) ∧
    (Transaction.handle rt db (some info) sid create_result).create_invoked = false ∧
    (Transaction.handle rt db (some info) sid create_result).ctx_transaction = none := by
  rcases hill with h | ⟨h1, h2⟩
  · simp [Transaction.handle, hac, h]
  · have hidx : isIndexRequest rt = false := by
      cases rt <;> simp_all [isIndexRequest, isDataRequest]
    simp [Transaction.handle, hac, hidx, h1, h2]

/-- Claim C6 witness: a createIndex request inside a non-auto-commit
transaction is rejected without touching the store. -/
theorem handle_rejects_illegal_before_create_witness :
    (⟨false, 1⟩ : RequestTransactionInfo).auto_commit = false ∧
    ((∃ msg, (Transaction.handle .CreateIndex "testdb" (some ⟨false, 1⟩) [] (.ok ())).result =
      .error (.DocumentDBErr .OperationNotSupportedInTransaction msg)) ∧
    (Transaction.handle .CreateIndex "testdb" (some ⟨false, 1⟩) [] (.ok ())).create_invoked
      = false ∧
    (Transaction.handle .CreateIndex "testdb" (some ⟨false, 1⟩) [] (.ok ())).ctx_transaction
      = none) :=
  ⟨rfl, handle_rejects_illegal_before_create .CreateIndex "testdb" ⟨false, 1⟩ [] (.ok ())
    rfl (Or.inl rfl)⟩

/-- Claim C7: when the store's `create` reports the already-committed
condition, `handle` turns it into success (with the context's transaction left
unset) exactly for a CommitTransaction request, and propagates it as an error
for every other request type that reaches `create`. -/
theorem handle_already_committed (rt : RequestType) (db : String)
    (info : RequestTransactionInfo) (sid : List Nat) (msg : String)
    (hac : info.auto_commit = false)
    (hidx : isIndexRequest rt = false)
    (hdata : (isDataRequest rt && isReservedDb db) = false) :
    Transaction.handle rt db (some info) sid
        (.error (.DocumentDBErr .TransactionCommitted msg)) =
      if rt = RequestType.CommitTransaction then ⟨.ok (), true, none⟩
      else ⟨.error (.DocumentDBErr .TransactionCommitted msg), true, none⟩ := by
  cases rt <;> simp_all [Transaction.handle, hac, hidx, hdata]

/-- Claim C7 witness: re-sending a commit for an already-committed session is
benign, with no transaction recorded on the context. -/
theorem handle_already_committed_witness :
    (⟨false, 1⟩ : RequestTransactionInfo).auto_commit = false ∧
    Transaction.handle .CommitTransaction "testdb" (some ⟨false, 1⟩) []
        (.error (.DocumentDBErr .TransactionCommitted "already committed")) =
      (if RequestType.CommitTransaction = RequestType.CommitTransaction then
        (⟨.ok (), true, none⟩ : HandleOutcome)
      else ⟨.error (.DocumentDBErr .TransactionCommitted "already committed"), true, none⟩) :=
  ⟨rfl, handle_already_committed .CommitTransaction "testdb" ⟨false, 1⟩ []
    "already committed" rfl rfl rfl⟩

/-! ## Pool manager registry (src/postgres/pool_manager.rs) -/

/-- What `ConnectionPool::new_with_user` fixes for a tenant data pool, as far
as the pool-manager claims observe it: the backend user and the bounded
maximum size passed to the constructor. -/
structure PoolModel where
  username : String
  max_size : Nat
deriving DecidableEq

/-- The key of `user_data_pools`: `(username, password, max_connections)`. -/
abbrev ClientKey := String × String × Nat

/-- The pool-manager state the data-pool claims observe: the current dynamic
max-connections value and system-connection budget, and the
`user_data_pools` registry (a map modelled as an association list with unique
keys, first match wins — matching `HashMap` lookup). -/
structure PoolManagerState where
  max_connections : Nat
  system_connection_budget : Nat
  user_data_pools : List (ClientKey × PoolModel)
deriving DecidableEq

/-- `HashMap::get` on the registry. -/
def lookupPool (pools : List (ClientKey × PoolModel)) (key : ClientKey) : Option PoolModel :=
  (pools.find? (fun kv => kv.1 == key)).map Prod.snd

/-- `PoolManager::get_data_pool`: look the pool up under the key built from
the *current* max-connections value; a missing entry is an internal
"Connection pool missing for user." error, a present one is returned as-is
(no pool is constructed). -/
def PoolManager.get_data_pool (st : PoolManagerState) (username password : String) :
    Except String PoolModel :=
  match lookupPool st.user_data_pools (username, password, st.max_connections) with
  | none => .error "Connection pool missing for user."
  | some pool_ref => .ok pool_ref

/-- `PoolManager::allocate_data_pool`: create-if-absent under the key built
from the current max-connections value.  The read-lock check and the
write-lock re-check of the source collapse to one check in this sequential
embedding; on a miss a pool with capacity
`get_real_max_connections max_connections` is constructed and inserted. -/
def PoolManager.allocate_data_pool (st : PoolManagerState) (username password : String) :
    Except String Unit × PoolManagerState :=
  let key : ClientKey := (username, password, st.max_connections)
  if (lookupPool st.user_data_pools key).isSome then (.ok (), st)
  else
    let user_data_pool : PoolModel :=
      ⟨username, get_real_max_connections st.max_connections st.system_connection_budget⟩
    (.ok (), { st with user_data_pools := (key, user_data_pool) :: st.user_data_pools })

/-- Claim C8: `get_data_pool` fails with the not-provisioned error exactly
when no pool is registered under `(username, password, current
max-connections)` — in particular after a max-connections change that moves
the lookup off every registered key — and otherwise returns the registered
pool unchanged. -/
theorem get_data_pool_not_provisioned (st : PoolManagerState) (username password : String) :
    (lookupPool st.user_data_pools (username, password, st.max_connections) = none →
      PoolManager.get_data_pool st username password =
        .error "Connection pool missing for user.") ∧
    (∀ pool, lookupPool st.user_data_pools (username, password, st.max_connections) = some pool →
      PoolManager.get_data_pool st username password = .ok pool) := by
  constructor
  · intro h
    simp [PoolManager.get_data_pool, h]
  · intro pool h
    simp [PoolManager.get_data_pool, h]

/-- Claim C8 witness: with an empty registry (no `allocate_data_pool` ever
called), `get_data_pool` fails with the not-provisioned error; with the pool
registered under the current key it is returned. -/
theorem get_data_pool_not_provisioned_witness :
    PoolManager.get_data_pool ⟨25, 7, []⟩ "alice" "pw" =
      .error "Connection pool missing for user." :=
  (get_data_pool_not_provisioned ⟨25, 7, []⟩ "alice" "pw").1 rfl

/-- Claim C9: `allocate_data_pool` is idempotent — when a pool is already
registered under the current key it returns success and leaves the whole
state unchanged; re-running it directly after a first call is a no-op; and it
always returns success. -/
theorem allocate_data_pool_idempotent (st : PoolManagerState) (username password : String) :
    ((lookupPool st.user_data_pools (username, password, st.max_connections)).isSome = true →
      PoolManager.allocate_data_pool st username password = (.ok (), st)) ∧
    PoolManager.allocate_data_pool
        ((PoolManager.allocate_data_pool st username password).2) username password =
      (.ok (), (PoolManager.allocate_data_pool st username password).2) ∧
    (PoolManager.allocate_data_pool st username password).1 = .ok () := by
  refine ⟨fun h => by simp [PoolManager.allocate_data_pool, h], ?_, ?_⟩
  · by_cases h : (lookupPool st.user_data_pools
      (username, password, st.max_connections)).isSome = true
    · simp [PoolManager.allocate_data_pool, h]
    · simp only [PoolManager.allocate_data_pool, h, if_false, Bool.false_eq_true]
      simp [lookupPool]
  · by_cases h : (lookupPool st.user_data_pools
      (username, password, st.max_connections)).isSome = true
    · simp [PoolManager.allocate_data_pool, h]
    · simp [PoolManager.allocate_data_pool, h]

/-- Claim C9 witness: re-allocating for a key that is already registered
returns success and leaves the registry with its single entry unchanged. -/
theorem allocate_data_pool_idempotent_witness :
    PoolManager.allocate_data_pool
        ⟨25, 7, [(("alice", "pw", 25), ⟨"alice", 18⟩)]⟩ "alice" "pw" =
      (.ok (), ⟨25, 7, [(("alice", "pw", 25), ⟨"alice", 18⟩)]⟩) :=
  (allocate_data_pool_idempotent ⟨25, 7, [(("alice", "pw", 25), ⟨"alice", 18⟩)]⟩
    "alice" "pw").1 (by decide)

/-! ## Connection pool last-used tracking and idle sweep
(src/postgres/connection_pool.rs, src/postgres/pool_manager.rs) -/

/-- The `ConnectionPool` state the idle-sweep claims observe: the `last_used`
instant behind the read/write lock (an absolute timestamp). -/
structure ConnectionPoolState where
  last_used : Nat
deriving DecidableEq

/-- `ConnectionPool::acquire_connection`: write `Instant::now()` into
`last_used`, then attempt `pool.get()` — whose outcome (a connection or an
acquire-timeout error, produced by the inner deadpool) is passed in as
`pool_get` and propagated unchanged.  The timestamp is updated before the
attempt, so it is refreshed even when the attempt fails. -/
def ConnectionPool.acquire_connection (st : ConnectionPoolState) (now : Nat)
    (pool_get : Except String Nat) : Except String Nat × ConnectionPoolState :=
  (pool_get, { st with last_used := now })

/-- The inner `clean` of `PoolManager::clean_unused_pools`: under a read lock
collect every key whose pool's `last_used` is older than `max_age`
(`elapsed > max_age`, i.e. `max_age < now - last_used`), then under a write
lock remove exactly those keys. -/
def clean_unused_pools {K : Type} [DecidableEq K]
    (pools : List (K × ConnectionPoolState)) (now max_age : Nat) :
    List (K × ConnectionPoolState) :=
  let keys_to_remove :=
    (pools.filter (fun kp => max_age < now - kp.2.last_used)).map Prod.fst
  pools.filter (fun kp => decide (kp.1 ∉ keys_to_remove))

theorem assoc_nodup_val_eq {K V : Type} {l : List (K × V)} {k : K} {v1 v2 : V}
    (hnd : (l.map Prod.fst).Nodup) (h1 : (k, v1) ∈ l) (h2 : (k, v2) ∈ l) : v1 = v2 := by
  induction l with
  | nil => cases h1
  | cons hd tl ih =>
    simp only [List.map_cons, List.nodup_cons] at hnd
    rcases List.mem_cons.mp h1 with h1 | h1 <;> rcases List.mem_cons.mp h2 with h2 | h2
    · exact ((Prod.mk.injEq k v1 k v2) ▸ (h1.trans h2.symm)).2
    · exfalso
      rw [← h1] at hnd
      have hmem2 : k ∈ tl.map Prod.fst := List.mem_map.mpr ⟨(k, v2), h2, rfl⟩
      exact hnd.1 hmem2
    · exfalso
      rw [← h2] at hnd
      have hmem1 : k ∈ tl.map Prod.fst := List.mem_map.mpr ⟨(k, v1), h1, rfl⟩
      exact hnd.1 hmem1
    · exact ih hnd.2 h1 h2

/-- Claim C10: `acquire_connection` stamps `last_used := now` regardless of
whether the acquisition succeeds, and a pool entry whose last-used time is
within `max_age` of the sweep instant survives `clean_unused_pools` (keys
assumed unique, as in the source's `HashMap`). -/
theorem acquire_refreshes_last_used {K : Type} [DecidableEq K]
    (st : ConnectionPoolState) (now : Nat) (pool_get : Except String Nat)
    (pools : List (K × ConnectionPoolState)) (k : K) (p : ConnectionPoolState)
    (sweep_now max_age : Nat)
    (hnd : (pools.map Prod.fst).Nodup)
    (hmem : (k, p) ∈ pools)
    (hfresh : sweep_now - p.last_used ≤ max_age) :
    (ConnectionPool.acquire_connection st now pool_get).2.last_used = now ∧
    (ConnectionPool.acquire_connection st now pool_get).1 = pool_get ∧
    (k, p) ∈ clean_unused_pools pools sweep_now max_age := by
  refine ⟨rfl, rfl, ?_⟩
  unfold clean_unused_pools
  rw [List.mem_filter]
  refine ⟨hmem, ?_⟩
  rw [decide_eq_true_eq]
  intro hk
  rcases List.mem_map.mp hk with ⟨⟨k', p'⟩, hkp_mem, hkp_fst⟩
  have hk' : k' = k := hkp_fst
  subst hk'
  rcases List.mem_filter.mp hkp_mem with ⟨hkp_pools, hkp_old⟩
  have hold : max_age < sweep_now - p'.last_used := of_decide_eq_true hkp_old
  have hpp : p' = p := assoc_nodup_val_eq hnd hkp_pools hmem
  rw [hpp] at hold
  omega

/-- Claim C10 witness: a pool whose acquisition at time 3 failed with a
timeout still has `last_used = 3` and survives a sweep at time 5 with
`max_age = 10`. -/
theorem acquire_refreshes_last_used_witness :
    (ConnectionPool.acquire_connection ⟨0⟩ 3 (.error "acquire timeout")).2.last_used = 3 ∧
    (ConnectionPool.acquire_connection ⟨0⟩ 3 (.error "acquire timeout")).1 =
      .error "acquire timeout" ∧
    ((1 : Nat), (⟨3⟩ : ConnectionPoolState)) ∈
      clean_unused_pools [((1 : Nat), (⟨3⟩ : ConnectionPoolState))] 5 10 :=
  acquire_refreshes_last_used ⟨0⟩ 3 (.error "acquire timeout")
    [((1 : Nat), (⟨3⟩ : ConnectionPoolState))] 1 ⟨3⟩ 5 10
    (by decide) (by decide) (by decide)

/-! ## Cursor saving (src/processor/cursor.rs) -/

/-- The dynamic-configuration accessors `save_cursor` consults: the
stateless-cursor-timeout feature switch and the two idle-timeout values (in
seconds). -/
structure CursorConfig where
  enable_stateless_cursor_timeout : Bool
  stateless_cursor_idle_timeout_sec : Nat
  default_cursor_idle_timeout_sec : Nat
deriving DecidableEq

/-- The entry stored for one cursor: the optionally owned connection (by its
handle), the scope, the applied idle timeout and the session. -/
structure CursorStoreEntry where
  conn : Option Nat
  db : String
  collection : String
  timeout_sec : Nat
  session_id : Option (List Nat)
deriving DecidableEq

/-- The cursor store, keyed by (cursor id, owner username). -/
abbrev CursorStore := List ((Int × String) × CursorStoreEntry)

/-- Modelled from the spec: `CursorStore::add_cursor` (src/context/cursor.rs,
not among these sources) persists the continuation entry under the key
(cursor id, owner username); a later lookup under that key finds it. -/
def add_cursor (store : CursorStore) (key : Int × String) (entry : CursorStoreEntry) :
    CursorStore :=
  (key, entry) :: store

/-- Lookup in the cursor store (first match wins, matching the map
semantics). -/
def lookupCursor (store : CursorStore) (key : Int × String) : Option CursorStoreEntry :=
  (store.find? (fun kv => kv.1 == key)).map Prod.snd

/-- `processor::cursor::save_cursor`: when the response carries a cursor
(`response.get_cursor()` yields `(persist, cursor_id)`), keep the supplied
connection only when `persist` is set, choose the stateless idle timeout when
the stateless-timeout switch is enabled and no connection is kept (otherwise
the default idle timeout), and add the entry under (cursor id, username). -/
def save_cursor (cfg : CursorConfig) (connection : Nat)
    (response_cursor : Option (Bool × Int)) (username db collection : String)
    (session_id : Option (List Nat)) (store : CursorStore) : CursorStore :=
  match response_cursor with
  | none => store
  | some (persist, cursor_id) =>
    let conn : Option Nat := if persist then some connection else none
    let cursor_timeout :=
      if cfg.enable_stateless_cursor_timeout && conn.isNone then
        cfg.stateless_cursor_idle_timeout_sec
      else cfg.default_cursor_idle_timeout_sec
    add_cursor store (cursor_id, username) ⟨conn, db, collection, cursor_timeout, session_id⟩

/-- Claim C2 counterexample: with the stateless-cursor-timeout switch
disabled (stateless timeout 100 s, default 3600 s), a cursor saved without a
kept connection (`persist = false`) is stored with the default timeout
3600 s, not the stateless 100 s the claim requires. -/
theorem save_cursor_stateless_timeout_cex :
    lookupCursor
        (save_cursor ⟨false, 100, 3600⟩ 0 (some (false, 7)) "u" "d" "c" none []) (7, "u") =
      some ⟨none, "d", "c", 3600, none⟩ ∧
    ¬ lookupCursor
        (save_cursor ⟨false, 100, 3600⟩ 0 (some (false, 7)) "u" "d" "c" none []) (7, "u") =
      some ⟨none, "d", "c", 100, none⟩ := by
  constructor <;> decide

/-- Claim C2 (amended): a cursor saved with `persist = false` is stored with
no connection, and its idle timeout is the stateless-specific value exactly
when the stateless-cursor-timeout switch is enabled, the default value
otherwise. -/
theorem save_cursor_stateless (cfg : CursorConfig) (connection : Nat) (cursor_id : Int)
    (username db collection : String) (session_id : Option (List Nat))
    (store : CursorStore) :
    lookupCursor
        (save_cursor cfg connection (some (false, cursor_id)) username db collection
          session_id store)
        (cursor_id, username) =
      some ⟨none, db, collection,
        (if cfg.enable_stateless_cursor_timeout then cfg.stateless_cursor_idle_timeout_sec
         else cfg.default_cursor_idle_timeout_sec), session_id⟩ := by
  simp [save_cursor, add_cursor, lookupCursor, List.find?]

end DocumentDB
